import Mathlib

/-
Verification of the search-query evaluator of Arc-Explorer
(src/search/query_evaluator.py).

The evaluator walks a boolean query AST (tags, AND, OR, NOT, brackets,
an all-images wildcard) and computes a set of matching image IDs by
issuing scoped SQL queries against a SQLite store.  We embed the store
relationally (the `images`, `tags` and `image_tags` tables as lists of
rows), embed each SQL query as the corresponding list comprehension,
and embed `sqlite3.Error` failures as per-query failure flags on the
store; the `except` clauses that catch them and `print` a diagnostic
become an explicit side-channel: every store operation returns its
result set together with a list of `Lookup` events (the queries it ran
and the error reports it printed).
-/

namespace ArcExplorer

/-- A row of the `images` table: an image ID and its file path. -/
structure Image where
  id : String
  path : String
deriving DecidableEq

/-- A row of the `tags` table: a tag ID and the tag's name. -/
structure TagRow where
  id : Nat
  name : String
deriving DecidableEq

/-- The store consumed by `SearchQueryEvaluator`: the three SQLite tables
(`image_tags` rows are `(image_id, tag_id)` pairs), plus per-query failure
flags embedding which `sqlite3.connect`/`execute` calls raise
`sqlite3.Error` (caught at each lookup boundary in the Python code). -/
structure Database where
  images : List Image
  tags : List TagRow
  image_tags : List (String × Nat)
  tagQueryFails : String → Bool
  allQueryFails : Bool
  filterQueryFails : Bool

/-- Modelled from the spec: `utils.path_utils.normalize_path` is imported by
the evaluator but its module is not part of the sources; the spec describes
scope elements only as already path-like normalized prefixes, so the
normalization applied in `__init__` is embedded as the identity on an
already-normalized path. -/
def normalize_path (p : String) : String := p

/-- The `__init__` scope snapshot: the Python set comprehension
`\x7bnormalize_path(d) for d in selected_directories\x7d`, which
deduplicates the caller-supplied prefixes. -/
def mkScope (dirs : List String) : Finset String :=
  (dirs.map normalize_path).toFinset

/-- Python `norm_dir.endswith('/')`, stated on the character list. -/
def endsWithSlash (d : String) : Bool :=
  d.data.getLast? == some '/'

/-- The per-directory normalization done at query time:
`if not norm_dir.endswith('/'): norm_dir += '/'`. -/
def dirSlash (d : String) : String :=
  if endsWithSlash d then d else d ++ "/"

/-- SQLite `lower(...)`: ASCII lower-casing of a string (SQLite folds only
ASCII by default, exactly what `Char.toLower` does). -/
def sqlLower (s : String) : String :=
  ⟨s.data.map Char.toLower⟩

/-- The scope condition each query attaches to a row:
`i.path LIKE '<dir>/%'` for some selected directory, i.e. some
slash-terminated scope prefix is a string prefix of the path. -/
def pathInScope (scope : Finset String) (p : String) : Prop :=
  ∃ d ∈ scope, List.isPrefixOf (dirSlash d).data p.data = true

instance (scope : Finset String) (p : String) : Decidable (pathInScope scope p) :=
  inferInstanceAs (Decidable (∃ d ∈ scope, List.isPrefixOf (dirSlash d).data p.data = true))

/-- The WHERE clause of the tag query on one `image_tags` row `it`:
`it.tag_id = t.id AND lower(t.name) = lower(?)` joined with
`it.image_id = i.id AND (i.path LIKE ... OR ...)`. -/
def tagMatchRow (db : Database) (scope : Finset String) (tag : String)
    (it : String × Nat) : Bool :=
  (db.tags.any fun t => t.id == it.2 && sqlLower t.name == sqlLower tag) &&
  (db.images.any fun i => i.id == it.1 && decide (pathInScope scope i.path))

/-- The result set of the SQL tag query
`SELECT it.image_id FROM image_tags it JOIN tags t ... JOIN images i ...`. -/
def tagQueryIds (db : Database) (scope : Finset String) (tag : String) : Finset String :=
  ((db.image_tags.filter (tagMatchRow db scope tag)).map Prod.fst).toFinset

/-- The result set of the SQL query `SELECT id FROM images WHERE <scope>`. -/
def allInScopeIds (db : Database) (scope : Finset String) : Finset String :=
  ((db.images.filter fun i => decide (pathInScope scope i.path)).map Image.id).toFinset

/-- Observable store activity of one evaluation: the indexed queries issued
and the error diagnostics printed by the `except sqlite3.Error` handlers. -/
inductive Lookup where
  | byTag (tag : String)
  | allQuery
  | filterQuery
  | dbError (msg : String)
deriving DecidableEq

/-- `SearchQueryEvaluator.get_image_ids_by_tag`: early-returns the empty set
when no directories are selected; otherwise runs the single scoped tag
query, degrading to the empty set plus a printed report on `sqlite3.Error`. -/
def get_image_ids_by_tag (db : Database) (scope : Finset String) (tag : String) :
    Finset String × List Lookup :=
  if scope = ∅ then (∅, [])
  else if db.tagQueryFails tag then
    (∅, [Lookup.byTag tag,
         Lookup.dbError ("Database error getting images by tag " ++ tag ++ " within scope")])
  else (tagQueryIds db scope tag, [Lookup.byTag tag])

/-- `SearchQueryEvaluator.get_all_image_ids_in_scope`. -/
def get_all_image_ids_in_scope (db : Database) (scope : Finset String) :
    Finset String × List Lookup :=
  if scope = ∅ then (∅, [])
  else if db.allQueryFails then
    (∅, [Lookup.allQuery, Lookup.dbError "Database error getting all image IDs in scope"])
  else (allInScopeIds db scope, [Lookup.allQuery])

/-- `SearchQueryEvaluator.filter_by_directory_scope`: when the scope or the
input set is empty it returns the input unchanged; otherwise one query
keeps the given IDs whose image row also satisfies the scope condition. -/
def filter_by_directory_scope (db : Database) (scope : Finset String)
    (image_ids : Finset String) : Finset String × List Lookup :=
  if scope = ∅ ∨ image_ids = ∅ then (image_ids, [])
  else if db.filterQueryFails then
    (∅, [Lookup.filterQuery, Lookup.dbError "Database error filtering by directory scope"])
  else
    (((db.images.filter fun i =>
        decide (i.id ∈ image_ids) && decide (pathInScope scope i.path)).map Image.id).toFinset,
     [Lookup.filterQuery])

/-- The AST produced by `query_parser` as used by the evaluator: the six
node classes TagNode, AllImagesNode, AndNode, OrNode, NotNode, BracketNode. -/
inductive ASTNode where
  | tag (t : String)
  | allImages
  | and (l r : ASTNode)
  | or (l r : ASTNode)
  | not (n : ASTNode)
  | bracket (e : ASTNode)
deriving DecidableEq

/-- `SearchQueryEvaluator.evaluate`: the result set together with the trace
of store lookups performed (in source order).  AndNode short-circuits on an
empty left result; NotNode queries the full scope first and subtracts. -/
def evaluate (db : Database) (scope : Finset String) : ASTNode → Finset String × List Lookup
  | ASTNode.tag t => get_image_ids_by_tag db scope t
  | ASTNode.allImages => get_all_image_ids_in_scope db scope
  | ASTNode.and l r =>
      let ls := evaluate db scope l
      if ls.1 = ∅ then (∅, ls.2)
      else
        let rs := evaluate db scope r
        (ls.1 ∩ rs.1, ls.2 ++ rs.2)
  | ASTNode.or l r =>
      let ls := evaluate db scope l
      let rs := evaluate db scope r
      (ls.1 ∪ rs.1, ls.2 ++ rs.2)
  | ASTNode.not n =>
      let alls := get_all_image_ids_in_scope db scope
      let ex := evaluate db scope n
      (alls.1 \ ex.1, alls.2 ++ ex.2)
  | ASTNode.bracket e => evaluate db scope e

/-- The dynamically-typed argument of `evaluate` as the Python code sees it:
one of the six AST classes, or any other object (`unknown` carries the
`type(node)` text used in the ValueError message). -/
inductive RawNode where
  | tag (t : String)
  | allImages
  | and (l r : RawNode)
  | or (l r : RawNode)
  | not (n : RawNode)
  | bracket (e : RawNode)
  | unknown (typeName : String)

/-- The injection of well-formed ASTs into dynamically-typed nodes. -/
def toRaw : ASTNode → RawNode
  | ASTNode.tag t => RawNode.tag t
  | ASTNode.allImages => RawNode.allImages
  | ASTNode.and l r => RawNode.and (toRaw l) (toRaw r)
  | ASTNode.or l r => RawNode.or (toRaw l) (toRaw r)
  | ASTNode.not n => RawNode.not (toRaw n)
  | ASTNode.bracket e => RawNode.bracket (toRaw e)

/-- `SearchQueryEvaluator.evaluate` with its dynamic isinstance dispatch:
a node that is none of the six AST classes raises
`ValueError(f"Unknown AST node type during evaluation: ...")`, which
propagates out of the recursion (the `except` clauses catch only
`sqlite3.Error`). -/
def evaluateRaw (db : Database) (scope : Finset String) :
    RawNode → Except String (Finset String × List Lookup)
  | RawNode.tag t => Except.ok (get_image_ids_by_tag db scope t)
  | RawNode.allImages => Except.ok (get_all_image_ids_in_scope db scope)
  | RawNode.and l r => do
      let ls ← evaluateRaw db scope l
      if ls.1 = ∅ then pure (∅, ls.2)
      else
        let rs ← evaluateRaw db scope r
        pure (ls.1 ∩ rs.1, ls.2 ++ rs.2)
  | RawNode.or l r => do
      let ls ← evaluateRaw db scope l
      let rs ← evaluateRaw db scope r
      pure (ls.1 ∪ rs.1, ls.2 ++ rs.2)
  | RawNode.not n => do
      let alls := get_all_image_ids_in_scope db scope
      let ex ← evaluateRaw db scope n
      pure (alls.1 \ ex.1, alls.2 ++ ex.2)
  | RawNode.bracket e => evaluateRaw db scope e
  | RawNode.unknown typeName =>
      Except.error ("Unknown AST node type during evaluation: " ++ typeName)

/-- A small concrete store for witnesses: three images, two tags,
image 1 tagged Cat, image 3 tagged dog, no failing queries. -/
def sampleDb : Database where
  images := [⟨"1", "/a/x"⟩, ⟨"2", "/ab/x"⟩, ⟨"3", "/a/y"⟩]
  tags := [⟨1, "Cat"⟩, ⟨2, "dog"⟩]
  image_tags := [("1", 1), ("3", 2)]
  tagQueryFails := fun _ => false
  allQueryFails := false
  filterQueryFails := false

/-- `sampleDb` with the tag query for `"bad"` raising `sqlite3.Error`. -/
def failTagDb : Database where
  images := sampleDb.images
  tags := sampleDb.tags
  image_tags := sampleDb.image_tags
  tagQueryFails := fun t => t == "bad"
  allQueryFails := false
  filterQueryFails := false

/- Helper lemmas shared by the claim theorems. -/

lemma eval_scope_empty (db : Database) (node : ASTNode) :
    evaluate db (∅ : Finset String) node = (∅, []) := by
  induction node with
  | tag t => simp [evaluate, get_image_ids_by_tag]
  | allImages => simp [evaluate, get_all_image_ids_in_scope]
  | and l r ihl ihr => simp [evaluate, ihl]
  | or l r ihl ihr => simp [evaluate, ihl, ihr]
  | not n ih => simp [evaluate, get_all_image_ids_in_scope, ih]
  | bracket e ih => simp [evaluate, ih]

lemma tagQuery_subset (db : Database) (scope : Finset String) (tag : String) :
    tagQueryIds db scope tag ⊆ allInScopeIds db scope := by
  intro x hx
  simp only [tagQueryIds, List.mem_toFinset, List.mem_map, List.mem_filter] at hx
  obtain ⟨it, ⟨hmem, hrow⟩, rfl⟩ := hx
  simp only [tagMatchRow, Bool.and_eq_true, List.any_eq_true] at hrow
  obtain ⟨-, i, hi, hcond⟩ := hrow
  simp only [Bool.and_eq_true, beq_iff_eq, decide_eq_true_eq] at hcond
  obtain ⟨hid, hscope⟩ := hcond
  simp only [allInScopeIds, List.mem_toFinset, List.mem_map, List.mem_filter]
  exact ⟨i, ⟨hi, by simpa using hscope⟩, hid⟩

lemma allInScopeIds_scope_empty (db : Database) :
    allInScopeIds db (∅ : Finset String) = ∅ := by
  ext x
  simp [allInScopeIds, pathInScope]

lemma get_all_fst_subset (db : Database) (scope : Finset String) :
    (get_all_image_ids_in_scope db scope).1 ⊆ allInScopeIds db scope := by
  unfold get_all_image_ids_in_scope
  split_ifs <;> simp

lemma get_all_fst_eq (db : Database) (scope : Finset String)
    (h : db.allQueryFails = false) :
    (get_all_image_ids_in_scope db scope).1 = allInScopeIds db scope := by
  by_cases hs : scope = ∅
  · subst hs
    simp [get_all_image_ids_in_scope, allInScopeIds_scope_empty]
  · simp [get_all_image_ids_in_scope, hs, h]

lemma get_tag_fst_subset (db : Database) (scope : Finset String) (tag : String) :
    (get_image_ids_by_tag db scope tag).1 ⊆ allInScopeIds db scope := by
  unfold get_image_ids_by_tag
  split_ifs with h1 h2
  · simp
  · simp
  · simpa using tagQuery_subset db scope tag

lemma eval_fst_subset (db : Database) (scope : Finset String) (node : ASTNode) :
    (evaluate db scope node).1 ⊆ allInScopeIds db scope := by
  induction node with
  | tag t => simpa [evaluate] using get_tag_fst_subset db scope t
  | allImages => simpa [evaluate] using get_all_fst_subset db scope
  | and l r ihl ihr =>
      simp only [evaluate]
      split_ifs with h
      · simp
      · exact subset_trans Finset.inter_subset_left ihl
  | or l r ihl ihr =>
      simp only [evaluate]
      exact Finset.union_subset ihl ihr
  | not n ih =>
      simp only [evaluate]
      exact subset_trans (Finset.sdiff_subset) (get_all_fst_subset db scope)
  | bracket e ih => simpa [evaluate] using ih

/-- C1: for every AST node and every scope, provided the scope-wide store
query does not fail, the result of `evaluate` is a subset of the set of all
items in scope as returned by `get_all_image_ids_in_scope`; no evaluation
path, NotNode and OrNode branches included, returns an ID outside scope. -/
theorem evaluate_result_subset_all_in_scope (db : Database) (scope : Finset String)
    (node : ASTNode) (h : db.allQueryFails = false) :
    (evaluate db scope node).1 ⊆ (get_all_image_ids_in_scope db scope).1 := by
  rw [get_all_fst_eq db scope h]
  exact eval_fst_subset db scope node

theorem evaluate_result_subset_all_in_scope_witness :
    sampleDb.allQueryFails = false ∧
    (evaluate sampleDb (mkScope ["/a"])
        (ASTNode.or (ASTNode.tag "cat") (ASTNode.not (ASTNode.tag "dog")))).1 ⊆
      (get_all_image_ids_in_scope sampleDb (mkScope ["/a"])).1 :=
  ⟨rfl, evaluate_result_subset_all_in_scope sampleDb (mkScope ["/a"])
    (ASTNode.or (ASTNode.tag "cat") (ASTNode.not (ASTNode.tag "dog"))) rfl⟩

/-- C2: with an empty scope set, `evaluate` returns the empty set for every
AST shape (AllImagesNode and NotNode over AllImagesNode included) and the
lookup trace is empty: no store query is performed. -/
theorem evaluate_empty_scope_no_lookup (db : Database) (node : ASTNode) :
    evaluate db (∅ : Finset String) node = (∅, []) :=
  eval_scope_empty db node

theorem evaluate_empty_scope_no_lookup_witness :
    evaluate sampleDb (∅ : Finset String) (ASTNode.not ASTNode.allImages) = (∅, []) :=
  evaluate_empty_scope_no_lookup sampleDb (ASTNode.not ASTNode.allImages)

/-- C3: for every NotNode and every scope, the result is exactly the set of
all items in scope minus the result of the inner node; the complement is
taken against the in-scope universe, so it stays inside the scope. -/
theorem evaluate_not_scoped_complement (db : Database) (scope : Finset String)
    (n : ASTNode) :
    (evaluate db scope (ASTNode.not n)).1 =
      (get_all_image_ids_in_scope db scope).1 \ (evaluate db scope n).1 ∧
    (evaluate db scope (ASTNode.not n)).1 ⊆ allInScopeIds db scope :=
  ⟨by simp [evaluate], eval_fst_subset db scope (ASTNode.not n)⟩

theorem evaluate_not_scoped_complement_witness :
    (evaluate sampleDb (mkScope ["/a"]) (ASTNode.not (ASTNode.tag "cat"))).1 =
      (get_all_image_ids_in_scope sampleDb (mkScope ["/a"])).1 \
        (evaluate sampleDb (mkScope ["/a"]) (ASTNode.tag "cat")).1 ∧
    (evaluate sampleDb (mkScope ["/a"]) (ASTNode.not (ASTNode.tag "cat"))).1 ⊆
      allInScopeIds sampleDb (mkScope ["/a"]) :=
  evaluate_not_scoped_complement sampleDb (mkScope ["/a"]) (ASTNode.tag "cat")

/-- C4: for every AndNode, the result set is the intersection of the two
operand results, and evaluation short-circuits: when the left operand
evaluates to the empty set the whole node returns the empty set and the
lookup trace is exactly the left operand's trace (the right operand is not
evaluated). -/
theorem evaluate_and_inter_short_circuit (db : Database) (scope : Finset String)
    (l r : ASTNode) :
    (evaluate db scope (ASTNode.and l r)).1 =
      (evaluate db scope l).1 ∩ (evaluate db scope r).1 ∧
    ((evaluate db scope l).1 = ∅ →
      evaluate db scope (ASTNode.and l r) = (∅, (evaluate db scope l).2)) := by
  constructor
  · simp only [evaluate]
    split_ifs with h
    · simp [h]
    · rfl
  · intro h
    simp [evaluate, h]

theorem evaluate_and_inter_short_circuit_witness :
    (evaluate sampleDb (mkScope ["/a"]) (ASTNode.tag "none")).1 = ∅ ∧
    evaluate sampleDb (mkScope ["/a"]) (ASTNode.and (ASTNode.tag "none") ASTNode.allImages) =
      (∅, (evaluate sampleDb (mkScope ["/a"]) (ASTNode.tag "none")).2) :=
  ⟨by decide,
   (evaluate_and_inter_short_circuit sampleDb (mkScope ["/a"])
      (ASTNode.tag "none") ASTNode.allImages).2 (by decide)⟩

/-- C5: when the store query behind one TagNode leaf raises a database
error, that lookup degrades to the empty set and the failure is reported on
the side channel (a `dbError` entry in the lookup trace) instead of an
exception aborting evaluation, so an OrNode whose other branch succeeds
still returns that branch's matches. -/
theorem or_branch_survives_leaf_failure (db : Database) (scope : Finset String)
    (tag : String) (r : ASTNode) (hfail : db.tagQueryFails tag = true)
    (hs : scope ≠ ∅) :
    (evaluate db scope (ASTNode.or (ASTNode.tag tag) r)).1 = (evaluate db scope r).1 ∧
    Lookup.dbError ("Database error getting images by tag " ++ tag ++ " within scope") ∈
      (evaluate db scope (ASTNode.or (ASTNode.tag tag) r)).2 := by
  have hleaf : get_image_ids_by_tag db scope tag =
      (∅, [Lookup.byTag tag,
           Lookup.dbError ("Database error getting images by tag " ++ tag ++ " within scope")]) := by
    simp [get_image_ids_by_tag, hs, hfail]
  constructor
  · simp [evaluate, hleaf]
  · simp [evaluate, hleaf]

theorem or_branch_survives_leaf_failure_witness :
    failTagDb.tagQueryFails "bad" = true ∧ mkScope ["/a"] ≠ ∅ ∧
    ((evaluate failTagDb (mkScope ["/a"])
        (ASTNode.or (ASTNode.tag "bad") ASTNode.allImages)).1 =
      (evaluate failTagDb (mkScope ["/a"]) ASTNode.allImages).1 ∧
    Lookup.dbError ("Database error getting images by tag " ++ "bad" ++ " within scope") ∈
      (evaluate failTagDb (mkScope ["/a"])
        (ASTNode.or (ASTNode.tag "bad") ASTNode.allImages)).2) :=
  ⟨by decide, by decide,
   or_branch_survives_leaf_failure failTagDb (mkScope ["/a"]) "bad" ASTNode.allImages
     (by decide) (by decide)⟩

/-- C6 counterexample: with an empty scope set and the nonempty input
set containing ID 1, `filter_by_directory_scope` returns the input set
unchanged (the code's `if not self.selected_directories or not image_ids:
return image_ids` branch), not the empty intersection with the in-scope
set that the claim demands. -/
theorem filter_scope_empty_counterexample :
    (filter_by_directory_scope sampleDb (∅ : Finset String) {"1"}).1 = {"1"} ∧
    ({"1"} : Finset String) ∩ allInScopeIds sampleDb (∅ : Finset String) = ∅ ∧
    (filter_by_directory_scope sampleDb (∅ : Finset String) {"1"}).1 ≠
      ({"1"} : Finset String) ∩ allInScopeIds sampleDb (∅ : Finset String) :=
  ⟨by decide, by decide, by decide⟩

/-- C6 (amended): for every ID set, when the scope set is nonempty and the
filtering query does not fail, `filter_by_directory_scope` returns exactly
the intersection of the given ID set with the set of in-scope items; with
an empty scope set it instead returns the given set unchanged. -/
theorem filter_scope_intersection (db : Database) (scope : Finset String)
    (ids : Finset String) (hf : db.filterQueryFails = false) :
    (scope ≠ ∅ → (filter_by_directory_scope db scope ids).1 = ids ∩ allInScopeIds db scope) ∧
    (filter_by_directory_scope db (∅ : Finset String) ids).1 = ids := by
  constructor
  · intro hs
    by_cases hids : ids = ∅
    · simp [filter_by_directory_scope, hids]
    · unfold filter_by_directory_scope
      rw [if_neg (by simp [hs, hids]), if_neg (by simp [hf])]
      ext x
      simp only [List.mem_toFinset, List.mem_map, List.mem_filter, Bool.and_eq_true,
        decide_eq_true_eq, Finset.mem_inter, allInScopeIds]
      constructor
      · rintro ⟨i, ⟨hi, hin, hsc⟩, rfl⟩
        exact ⟨hin, ⟨i, ⟨hi, by simpa using hsc⟩, rfl⟩⟩
      · rintro ⟨hin, i, ⟨hi, hsc⟩, rfl⟩
        exact ⟨i, ⟨hi, hin, by simpa using hsc⟩, rfl⟩
  · simp [filter_by_directory_scope]

theorem filter_scope_intersection_witness :
    sampleDb.filterQueryFails = false ∧ mkScope ["/a"] ≠ ∅ ∧
    (filter_by_directory_scope sampleDb (mkScope ["/a"]) {"1", "2"}).1 =
      ({"1", "2"} : Finset String) ∩ allInScopeIds sampleDb (mkScope ["/a"]) ∧
    (filter_by_directory_scope sampleDb (∅ : Finset String) ({"1", "2"} : Finset String)).1 =
      {"1", "2"} :=
  ⟨rfl, by decide,
   (filter_scope_intersection sampleDb (mkScope ["/a"]) {"1", "2"} rfl).1 (by decide),
   (filter_scope_intersection sampleDb (mkScope ["/a"]) {"1", "2"} rfl).2⟩

/-- C7: duplicate scope prefixes are deduplicated by the scope snapshot; a
prefix lacking a trailing separator gets one appended before the
containment test, so scope `/a` matches the item at `/a/x` but not the
sibling `/ab/x`, and the in-scope query over `sampleDb` (images 1, 2, 3 at
`/a/x`, `/ab/x`, `/a/y`) returns exactly images 1 and 3. -/
theorem scope_dedup_and_slash_normalization :
    (∀ dirs : List String, mkScope (dirs ++ dirs) = mkScope dirs) ∧
    (∀ d : String, endsWithSlash d = false → dirSlash d = d ++ "/") ∧
    pathInScope (mkScope ["/a"]) "/a/x" ∧
    ¬ pathInScope (mkScope ["/a"]) "/ab/x" ∧
    allInScopeIds sampleDb (mkScope ["/a"]) = {"1", "3"} := by
  refine ⟨?_, ?_, by decide, by decide, by decide⟩
  · intro dirs
    simp [mkScope]
  · intro d hd
    simp [dirSlash, hd]

theorem scope_dedup_and_slash_normalization_witness :
    mkScope (["/a"] ++ ["/a"]) = mkScope ["/a"] ∧
    (endsWithSlash "/a" = false → dirSlash "/a" = "/a" ++ "/") :=
  ⟨scope_dedup_and_slash_normalization.1 ["/a"],
   scope_dedup_and_slash_normalization.2.1 "/a"⟩

/-- C8: for every AST and every scope, provided the scope-wide store query
does not fail, evaluating NotNode (NotNode a) yields the same result set as
evaluating a: double negation is the identity relative to the in-scope
universe. -/
theorem evaluate_double_negation (db : Database) (scope : Finset String)
    (a : ASTNode) (h : db.allQueryFails = false) :
    (evaluate db scope (ASTNode.not (ASTNode.not a))).1 = (evaluate db scope a).1 := by
  simp only [evaluate]
  rw [Finset.sdiff_sdiff_self_left, get_all_fst_eq db scope h,
    Finset.inter_eq_right.mpr (eval_fst_subset db scope a)]

theorem evaluate_double_negation_witness :
    sampleDb.allQueryFails = false ∧
    (evaluate sampleDb (mkScope ["/a"])
        (ASTNode.not (ASTNode.not (ASTNode.tag "cat")))).1 =
      (evaluate sampleDb (mkScope ["/a"]) (ASTNode.tag "cat")).1 :=
  ⟨rfl, evaluate_double_negation sampleDb (mkScope ["/a"]) (ASTNode.tag "cat") rfl⟩

lemma exceptOk_bind {α β : Type} (a : α) (f : α → Except String β) :
    (Except.ok a : Except String α) >>= f = f a := rfl

lemma exceptPure {α : Type} (a : α) : (pure a : Except String α) = Except.ok a := rfl

/-- C9: tag matching is case-insensitive: two queried names with the same
SQLite lower-casing produce the same result set, and an ID is in the result
exactly when some image row in scope carries, via the `image_tags` join, a
tag whose stored name equals the queried name up to case. -/
theorem tag_match_case_insensitive (db : Database) (scope : Finset String)
    (t1 t2 : String) (hcase : sqlLower t1 = sqlLower t2)
    (hf1 : db.tagQueryFails t1 = false) (hf2 : db.tagQueryFails t2 = false) :
    (evaluate db scope (ASTNode.tag t1)).1 = (evaluate db scope (ASTNode.tag t2)).1 ∧
    ∀ x, x ∈ (evaluate db scope (ASTNode.tag t1)).1 ↔
      ∃ i ∈ db.images, ∃ t ∈ db.tags, (i.id, t.id) ∈ db.image_tags ∧
        x = i.id ∧ sqlLower t.name = sqlLower t1 ∧ pathInScope scope i.path := by
  have hrow : tagMatchRow db scope t1 = tagMatchRow db scope t2 := by
    funext it
    unfold tagMatchRow
    rw [hcase]
  constructor
  · by_cases hs : scope = ∅
    · simp [evaluate, get_image_ids_by_tag, hs]
    · simp [evaluate, get_image_ids_by_tag, hs, hf1, hf2, tagQueryIds, hrow]
  · intro x
    by_cases hs : scope = ∅
    · subst hs
      simp [evaluate, get_image_ids_by_tag, pathInScope]
    · rw [show evaluate db scope (ASTNode.tag t1) = (tagQueryIds db scope t1, [Lookup.byTag t1]) from
        by simp [evaluate, get_image_ids_by_tag, hs, hf1]]
      simp only [tagQueryIds, List.mem_toFinset, List.mem_map, List.mem_filter,
        tagMatchRow, Bool.and_eq_true, List.any_eq_true, beq_iff_eq, decide_eq_true_eq]
      constructor
      · rintro ⟨it, ⟨hit, ⟨t, ht, htid, hname⟩, ⟨i, hi, hiid, hpath⟩⟩, rfl⟩
        refine ⟨i, hi, t, ht, ?_, hiid.symm, hname, hpath⟩
        have hpair : (i.id, t.id) = it := by
          cases it
          simp_all
        rw [hpair]
        exact hit
      · rintro ⟨i, hi, t, ht, hmem, rfl, hname, hpath⟩
        exact ⟨(i.id, t.id), ⟨hmem, ⟨t, ht, rfl, hname⟩, ⟨i, hi, rfl, hpath⟩⟩, rfl⟩

theorem tag_match_case_insensitive_witness :
    sqlLower "CAT" = sqlLower "cat" ∧
    (evaluate sampleDb (mkScope ["/a"]) (ASTNode.tag "CAT")).1 =
      (evaluate sampleDb (mkScope ["/a"]) (ASTNode.tag "cat")).1 :=
  ⟨by decide,
   (tag_match_case_insensitive sampleDb (mkScope ["/a"]) "CAT" "cat"
      (by decide) rfl rfl).1⟩

/-- C10: the ValueError branch of the dynamic isinstance dispatch fires
exactly on an argument that is none of the six AST node classes: evaluating
an unknown node yields the ValueError, while every tree built only from the
six variants evaluates without error to the set computed by `evaluate`. -/
theorem evaluate_unknown_node_error (db : Database) (scope : Finset String) :
    (∀ typeName, evaluateRaw db scope (RawNode.unknown typeName) =
      Except.error ("Unknown AST node type during evaluation: " ++ typeName)) ∧
    (∀ a : ASTNode, evaluateRaw db scope (toRaw a) = Except.ok (evaluate db scope a)) := by
  refine ⟨fun typeName => rfl, fun a => ?_⟩
  induction a with
  | tag t => rfl
  | allImages => rfl
  | and l r ihl ihr =>
      simp only [toRaw, evaluateRaw, ihl, ihr, exceptOk_bind, exceptPure, evaluate]
      split_ifs <;> rfl
  | or l r ihl ihr =>
      simp only [toRaw, evaluateRaw, ihl, ihr, exceptOk_bind, exceptPure, evaluate]
  | not n ih =>
      simp only [toRaw, evaluateRaw, ih, exceptOk_bind, exceptPure, evaluate]
  | bracket e ih =>
      simp only [toRaw, evaluateRaw, ih, evaluate]

theorem evaluate_unknown_node_error_witness :
    evaluateRaw sampleDb (mkScope ["/a"]) (RawNode.unknown "SomeQObject") =
      Except.error ("Unknown AST node type during evaluation: " ++ "SomeQObject") ∧
    evaluateRaw sampleDb (mkScope ["/a"]) (toRaw (ASTNode.tag "cat")) =
      Except.ok (evaluate sampleDb (mkScope ["/a"]) (ASTNode.tag "cat")) :=
  ⟨(evaluate_unknown_node_error sampleDb (mkScope ["/a"])).1 "SomeQObject",
   (evaluate_unknown_node_error sampleDb (mkScope ["/a"])).2 (ASTNode.tag "cat")⟩

end ArcExplorer
